import Mathlib

/-!
Verification of the content-generation and image-provider services of the
social-media-platform repository: a shallow embedding of
`src/services/seo_content_service.py` and `src/services/ai_image_service.py`,
followed by theorems settling the specification's claims.

Conventions of the embedding:
* Python strings are Lean `String`s; the scoring functions work on `List Char`
  (`String.data`), which matches Python's per-codepoint view of `str`.
* Python floats are embedded as `ℚ`; the only float operations performed by the
  code (adding small integer constants, one division by 100, multiplying a
  small integer by 0.3/0.4/0.5 and truncating with `int`) agree with exact
  rational arithmetic on every reachable input.
* Each call to the `random` module is a parameter of the embedded function
  (an index for `random.choice`, a sampling function for `random.sample`, a
  number for `random.randint`); theorems quantify over those parameters,
  constrained exactly by the random API's contract.
* A Python `dict[...]` lookup that can raise `KeyError` is embedded as an
  `Option`/`Except` value; code that can raise returns `Except String α`
  where the error holds the missing key or the exception message.
-/

/-- ASCII lower-casing of one character, the fragment of Python's `str.lower`
exercised by the code (all keyword and indicator constants are ASCII). -/
def toLowerAscii (c : Char) : Char :=
  if 'A' ≤ c ∧ c ≤ 'Z' then Char.ofNat (c.toNat + 32) else c

/-- Embedding of Python's `s.lower()` on the codepoint list. -/
def lowerChars (s : List Char) : List Char := s.map toLowerAscii

/-- `isPre n h` : `n` is a prefix of `h` (Boolean). -/
def isPre : List Char → List Char → Bool
  | [], _ => true
  | _ :: _, [] => false
  | a :: as, b :: bs => a = b && isPre as bs

/-- Embedding of Python's substring test `needle in haystack`. -/
def containsSub (needle : List Char) : List Char → Bool
  | [] => isPre needle []
  | c :: rest => isPre needle (c :: rest) || containsSub needle rest

/-- Embedding of Python's `haystack.count(needle)` (non-overlapping count;
an empty needle counts `len + 1` occurrences, as in Python). -/
def countOccs (needle : List Char) (hay : List Char) : ℕ :=
  if needle = [] then hay.length + 1
  else
    match hay with
    | [] => 0
    | c :: rest =>
      if isPre needle (c :: rest) then 1 + countOccs needle (rest.drop (needle.length - 1))
      else countOccs needle rest
termination_by hay.length
decreasing_by
  · simp only [List.length_drop, List.length_cons]; omega
  · simp only [List.length_cons]; omega

/-- `self.location_keywords['primary']` of `SEOContentService.__init__`. -/
def location_keywords_primary : List String :=
  ["Windsor", "Essex County", "Windsor-Essex", "Windsor Ontario",
   "Essex", "Kingsville", "Leamington", "Tecumseh", "LaSalle",
   "Amherstburg", "Belle River", "Harrow"]

/-- `self.real_estate_keywords['primary']`. -/
def real_estate_keywords_primary : List String :=
  ["real estate", "homes for sale", "property", "house", "listing",
   "real estate agent", "realtor", "home buyer", "home seller",
   "property investment", "housing market"]

/-- `self.real_estate_keywords['long_tail']`. -/
def real_estate_keywords_long_tail : List String :=
  ["first time home buyer", "luxury homes", "investment property",
   "market trends", "home valuation", "property search",
   "real estate market analysis", "home buying tips",
   "selling your home", "property investment opportunities"]

/-- The keywords in the order `self.real_estate_keywords.values()` yields them
(Python dicts iterate in insertion order: primary, then long_tail). -/
def real_estate_keywords_all : List String :=
  real_estate_keywords_primary ++ real_estate_keywords_long_tail

/-- One platform's hashtag strategy: the `count` pair and the `mix` ratios of
`self.hashtag_strategies[platform]`. -/
structure HashtagStrategy where
  min_count : ℕ
  max_count : ℕ
  mix_high_volume : ℚ
  mix_medium_volume : ℚ
  mix_niche : ℚ
deriving DecidableEq

/-- `self.hashtag_strategies`, a dict with keys `instagram` and `facebook`;
`none` models the `KeyError` any other key raises. -/
def hashtag_strategies (platform : String) : Option HashtagStrategy :=
  if platform = "instagram" then some ⟨8, 12, 3/10, 4/10, 3/10⟩
  else if platform = "facebook" then some ⟨2, 5, 5/10, 3/10, 2/10⟩
  else none

/-- `self.hashtags['high_volume']`. -/
def hashtags_high_volume : List String :=
  ["#RealEstate", "#HomesForSale", "#Property", "#House",
   "#RealEstateAgent", "#Realtor", "#Home", "#Investment",
   "#Ontario", "#Canada", "#PropertyInvestment"]

/-- `self.hashtags['medium_volume']`. -/
def hashtags_medium_volume : List String :=
  ["#WindsorRealEstate", "#EssexCounty", "#WindsorOntario",
   "#WindsorHomes", "#EssexCountyRealEstate", "#LocalRealEstate",
   "#WindsorProperty", "#SouthwestOntario", "#GreatLakesRegion",
   "#BorderCity", "#WindsorEssex"]

/-- `self.hashtags['niche']`. -/
def hashtags_niche : List String :=
  ["#WindsorHomeBuyer", "#EssexCountyHomes", "#WindsorPropertyMarket",
   "#LocalRealEstateExpert", "#WindsorInvestment", "#EssexCountyProperty",
   "#WindsorNeighborhoods", "#DetroitWindsorArea", "#WindsorRealtor",
   "#EssexCountyAgent", "#WindsorListings", "#LocalPropertyExpert"]

/-- The `cta_indicators` list of `_calculate_seo_score`. -/
def cta_indicators : List String :=
  ["dm", "message", "contact", "call", "visit", "schedule", "book"]

/-- The `engagement_indicators` list of `_calculate_seo_score`. -/
def engagement_indicators : List String :=
  ["?", "!", "comment", "share", "tag", "save"]

/-- Embedding of `SEOContentService._calculate_seo_score`.  Every component is
computed exactly as in the source: +20 for a location mention, +3 per present
real-estate keyword capped at 30, the length band, +15 for a CTA indicator,
+3 per present engagement indicator capped at 15, and the total capped at
100.  `content_type` is a parameter of the source that the body never uses. -/
def calculate_seo_score (content location content_type : String) : ℚ :=
  let content_lower := lowerChars content.data
  let location_score : ℚ :=
    if containsSub (lowerChars location.data) content_lower then 20 else 0
  let keyword_count : ℕ :=
    (real_estate_keywords_all.filter
      (fun k => containsSub (lowerChars k.data) content_lower)).length
  let keyword_score : ℚ := min ((keyword_count : ℚ) * 3) 30
  let content_length : ℕ := content.data.length
  let length_score : ℚ :=
    if 100 ≤ content_length ∧ content_length ≤ 300 then 20
    else if (50 ≤ content_length ∧ content_length < 100) ∨
            (300 < content_length ∧ content_length ≤ 500) then 15
    else if 500 < content_length then 10
    else 0
  let cta_score : ℚ :=
    if cta_indicators.any (fun i => containsSub i.data content_lower) then 15 else 0
  let engagement_count : ℕ :=
    (engagement_indicators.filter (fun i => containsSub i.data content_lower)).length
  let engagement_score : ℚ := min ((engagement_count : ℚ) * 3) 15
  min (location_score + keyword_score + length_score + cta_score + engagement_score) 100

/-- The sentence terminators of `re.split(r'[.!?]+', content)`. -/
def sentence_term (c : Char) : Bool := c = '.' || c = '!' || c = '?'

/-- Prepends a character to the first piece of a split result. -/
def consHead (c : Char) : List (List Char) → List (List Char)
  | [] => [[c]]
  | p :: ps => (c :: p) :: ps

/-- Embedding of `re.split(r'[.!?]+', content)`: the pieces between maximal
runs of sentence terminators, empty boundary pieces included (as `re.split`
produces them).  A terminator directly followed by another belongs to the
same run, so it adds no piece. -/
def splitSentences : List Char → List (List Char)
  | [] => [[]]
  | [c] => if sentence_term c then [[], []] else [[c]]
  | c :: d :: rest =>
    if sentence_term c then
      if sentence_term d then splitSentences (d :: rest)
      else [] :: splitSentences (d :: rest)
    else consHead c (splitSentences (d :: rest))

/-- The whitespace characters of Python's no-argument `str.split()`
(ASCII fragment). -/
def python_ws (c : Char) : Bool :=
  c = ' ' || c = '\t' || c = '\n' || c = '\r' || c = '\x0b' || c = '\x0c'

/-- Word counting helper: `word_count_aux inWord l` counts the words of `l`,
`inWord` recording whether the previous character was inside a word. -/
def word_count_aux (inWord : Bool) : List Char → ℕ
  | [] => 0
  | c :: rest =>
    if python_ws c then word_count_aux false rest
    else (if inWord then 0 else 1) + word_count_aux true rest

/-- Embedding of `len(content.split())`: the number of maximal
non-whitespace runs. -/
def word_count (l : List Char) : ℕ := word_count_aux false l

/-- Embedding of `SEOContentService._calculate_readability_score`:
`sentences` is the number of pieces `re.split` returns, `words` the number of
whitespace-separated words, and the result the banded value of
`words / sentences` (the `sentences == 0` branch of the source is kept
verbatim). -/
def calculate_readability_score (content : String) : ℚ :=
  let sentences : ℕ := (splitSentences content.data).length
  let words : ℕ := word_count content.data
  if sentences = 0 then 0
  else
    let avg_sentence_length : ℚ := (words : ℚ) / (sentences : ℚ)
    if avg_sentence_length ≤ 15 then 90
    else if avg_sentence_length ≤ 20 then 70
    else if avg_sentence_length ≤ 25 then 50
    else 30

/-- The `cta_indicators` list of `_calculate_engagement_score` (a different
list from the one `_calculate_seo_score` uses). -/
def engagement_cta_indicators : List String :=
  ["dm", "message", "contact", "comment", "share", "tag"]

/-- The call-to-action component of `_calculate_engagement_score`: +10 when
any of its `cta_indicators` occurs in `content.lower()`, else 0. -/
def engagement_cta_bonus (content : String) : ℚ :=
  if engagement_cta_indicators.any
      (fun i => containsSub i.data (lowerChars content.data)) then 10 else 0

/-- The visual-reference words of the Instagram branch of
`_calculate_engagement_score`. -/
def instagram_visual_words : List String := ["photo", "image", "see", "look", "view"]

/-- Embedding of `SEOContentService._calculate_engagement_score`.  The
`self.hashtag_strategies[platform]` lookup raises `KeyError` for an unknown
platform, embedded as the `Except.error` branch. -/
def calculate_engagement_score (content : String) (hashtags : List String)
    (platform : String) : Except String ℚ :=
  let seo_score := calculate_seo_score content "Windsor" "general"
  let content_quality : ℚ := seo_score / 100 * 40
  match hashtag_strategies platform with
  | none => Except.error platform
  | some strategy =>
    let hashtag_count : ℕ := hashtags.length
    let hashtag_score : ℚ :=
      if strategy.min_count ≤ hashtag_count ∧ hashtag_count ≤ strategy.max_count then 30
      else
        let distance : ℕ :=
          min ((hashtag_count : ℤ) - (strategy.min_count : ℤ)).natAbs
              ((hashtag_count : ℤ) - (strategy.max_count : ℤ)).natAbs
        max (30 - (distance : ℚ) * 5) 0
    let platform_score : ℚ :=
      if platform = "instagram" then
        (if instagram_visual_words.any
            (fun w => containsSub w.data (lowerChars content.data)) then 10 else 0) +
        (if content.data.length ≤ 300 then 10 else 0)
      else
        (if 100 ≤ content.data.length then 10 else 0) +
        (if containsSub ['?'] content.data then 10 else 0)
    Except.ok (min (content_quality + hashtag_score + platform_score +
      engagement_cta_bonus content) 100)

/-- Python's `int(x)` on the nonnegative float products `target_count * ratio`
of `_generate_hashtags` (truncation; for nonnegative values, the floor).  On
every value the code can produce (`target_count` between 2 and 12, ratios
0.3/0.4/0.5/0.2), exact rational arithmetic and binary floating point give the
same truncated integer. -/
def pyInt (q : ℚ) : ℕ := q.floor.toNat

/-- The content-type specific hashtags `_generate_hashtags` appends (the
`community` list is the `else` branch, so every unrecognized category gets
it). -/
def content_type_hashtags (content_type : String) : List String :=
  if content_type = "property_showcase" then
    ["#JustListed", "#NewListing", "#PropertyShowcase"]
  else if content_type = "market_update" then
    ["#MarketUpdate", "#RealEstateNews", "#MarketTrends"]
  else if content_type = "educational" then
    ["#RealEstateTips", "#HomeBuyingTips", "#RealEstateEducation"]
  else
    ["#CommunityLove", "#LocalBusiness", "#Neighborhood"]

/-- `location.replace(' ', '').replace('-', '')` of `_generate_hashtags`. -/
def clean_location (location : String) : String :=
  ⟨location.data.filter (fun c => !(c = ' ' || c = '-'))⟩

/-- Embedding of `SEOContentService._generate_hashtags`.  The random draws are
parameters: `target_count` stands for `random.randint(min_count, max_count)`
and `sample pool k` for `random.sample(pool, k)`.  Python's
`list(set(...))` deduplication (order unspecified) is embedded as
`List.dedup`.  The `self.hashtag_strategies[platform]` lookup raises
`KeyError` for an unknown platform, embedded as the `Except.error` branch. -/
def generate_hashtags (content_type platform location : String)
    (target_count : ℕ) (sample : List String → ℕ → List String) :
    Except String (List String) :=
  match hashtag_strategies platform with
  | none => Except.error platform
  | some strategy =>
    let high_count := pyInt ((target_count : ℚ) * strategy.mix_high_volume)
    let medium_count := pyInt ((target_count : ℚ) * strategy.mix_medium_volume)
    let niche_count := target_count - high_count - medium_count
    let selected_hashtags :=
      sample hashtags_high_volume (min high_count hashtags_high_volume.length) ++
      sample hashtags_medium_volume (min medium_count hashtags_medium_volume.length) ++
      sample hashtags_niche (min niche_count hashtags_niche.length)
    let location_clean := clean_location location
    let location_hashtags := ["#" ++ location_clean, "#" ++ location_clean ++ "RealEstate"]
    let selected_hashtags := selected_hashtags ++ content_type_hashtags content_type
    let all_hashtags := (selected_hashtags ++ location_hashtags).dedup
    Except.ok (all_hashtags.take target_count)

/-- The weekday/weekend posting-hour ranges of one platform
(`self.optimal_posting_times[platform]`). -/
structure PostingTimes where
  weekday : List (ℕ × ℕ)
  weekend : List (ℕ × ℕ)
deriving DecidableEq

/-- `self.optimal_posting_times`; `none` models the `KeyError` an unknown
platform raises. -/
def optimal_posting_times (platform : String) : Option PostingTimes :=
  if platform = "instagram" then some ⟨[(11, 13), (18, 20)], [(10, 12)]⟩
  else if platform = "facebook" then some ⟨[(9, 10), (15, 16)], [(12, 13)]⟩
  else none

/-- Microseconds in a day: `datetime` timestamps have microsecond
resolution. -/
def usPerDay : ℕ := 86400000000

/-- Embedding of `SEOContentService._get_optimal_posting_time`.  Time is
measured in microseconds; `now` is day `nowDay` plus `nowTime` microseconds
(`nowTime < usPerDay`).  `target_hour` and `target_minute` stand for the
values drawn by `random.randint(start_hour, end_hour - 1)` over the range
picked by `random.choice(time_ranges)` (weekday or weekend ranges of the
platform) and by `random.choice([0, 15, 30, 45])`.  The result is the
returned absolute timestamp in microseconds (`now.replace(hour=...,
minute=..., second=0, microsecond=0)`, plus one day when that is ≤ now). -/
def get_optimal_posting_time (platform : String) (nowDay nowTime : ℕ)
    (target_hour target_minute : ℕ) : Except String ℕ :=
  match optimal_posting_times platform with
  | none => Except.error platform
  | some _ =>
    let now := nowDay * usPerDay + nowTime
    let target_time := nowDay * usPerDay + (target_hour * 3600 + target_minute * 60) * 1000000
    Except.ok (if target_time ≤ now then target_time + usPerDay else target_time)

/-- One token of a Python format template: literal text or a substituted
field. -/
inductive Tok where
  | lit (s : String)
  | field (name : String)
deriving DecidableEq

/-- Python dict lookup `data.get(k)` over the embedding's association lists
(keys are unique, so the first match is the entry). -/
def dict_get (data : List (String × String)) (k : String) : Option String :=
  (data.find? (fun p => p.1 = k)).map (fun p => p.2)

/-- Python's `template.format(**data)`: each literal is copied, each field is
looked up in `data`; a missing field raises `KeyError(field)`, embedded as
the error value. -/
def render_template (toks : List Tok) (data : List (String × String)) :
    Except String String :=
  toks.foldlM (fun acc t =>
    match t with
    | Tok.lit s => Except.ok (acc ++ s)
    | Tok.field name =>
      match dict_get data name with
      | some v => Except.ok (acc ++ v)
      | none => Except.error name) ""

/-- `random.choice(l)` for a string pool: the drawn index, reduced modulo the
pool size (every pool in the source is non-empty, so this ranges over exactly
the pool). -/
def pick (l : List String) (i : ℕ) : String := l.getD (i % l.length) ""

/-- `random.choice(l)` for a template pool. -/
def pickToks (l : List (List Tok)) (i : ℕ) : List Tok := l.getD (i % l.length) []

/-- The hook and structure template tables of one content type. -/
structure ContentTemplate where
  hooks : List (List Tok)
  structures : List (List Tok)
deriving DecidableEq

/-- `self.content_templates['property_showcase']`. -/
def property_showcase_template : ContentTemplate where
  hooks :=
    [[Tok.lit "🏡 Just listed in ", Tok.field "location", Tok.lit "!"],
     [Tok.lit "✨ New on the market:"],
     [Tok.lit "🔥 Hot property alert!"],
     [Tok.lit "💎 Hidden gem discovered:"],
     [Tok.lit "🌟 Featured listing:"]]
  structures :=
    [[Tok.field "hook", Tok.lit "\n\n", Tok.field "property_description",
      Tok.lit "\n\n💰 ", Tok.field "price_info", Tok.lit "\n📍 ",
      Tok.field "location_details", Tok.lit "\n\n", Tok.field "call_to_action"],
     [Tok.field "hook", Tok.lit "\n\n", Tok.field "key_features", Tok.lit "\n\n",
      Tok.field "neighborhood_info", Tok.lit "\n\n", Tok.field "call_to_action"],
     [Tok.field "hook", Tok.lit "\n\n", Tok.field "property_description", Tok.lit "\n\n",
      Tok.field "investment_angle", Tok.lit "\n\n", Tok.field "call_to_action"]]

/-- `self.content_templates['market_update']`. -/
def market_update_template : ContentTemplate where
  hooks :=
    [[Tok.lit "📊 ", Tok.field "location", Tok.lit " Market Update:"],
     [Tok.lit "📈 What's happening in ", Tok.field "location", Tok.lit ":"],
     [Tok.lit "🏘️ ", Tok.field "location", Tok.lit " Real Estate Trends:"],
     [Tok.lit "💹 Market Insight for ", Tok.field "location", Tok.lit ":"],
     [Tok.lit "📋 Your ", Tok.field "location", Tok.lit " Market Report:"]]
  structures :=
    [[Tok.field "hook", Tok.lit "\n\n", Tok.field "market_data", Tok.lit "\n\n",
      Tok.field "analysis", Tok.lit "\n\n", Tok.field "advice", Tok.lit "\n\n",
      Tok.field "call_to_action"],
     [Tok.field "hook", Tok.lit "\n\n", Tok.field "trend_summary", Tok.lit "\n\n",
      Tok.field "impact_explanation", Tok.lit "\n\n", Tok.field "call_to_action"]]

/-- `self.content_templates['educational']`.  Note the fourth hook references
`{topic}`. -/
def educational_template : ContentTemplate where
  hooks :=
    [[Tok.lit "💡 Home Buying Tip:"],
     [Tok.lit "🎓 Real Estate Education:"],
     [Tok.lit "📚 Did you know?"],
     [Tok.lit "🤔 Wondering about ", Tok.field "topic", Tok.lit "?"],
     [Tok.lit "💭 Common question:"]]
  structures :=
    [[Tok.field "hook", Tok.lit "\n\n", Tok.field "educational_content", Tok.lit "\n\n",
      Tok.field "practical_application", Tok.lit "\n\n", Tok.field "call_to_action"],
     [Tok.field "hook", Tok.lit "\n\n", Tok.field "myth_busting", Tok.lit "\n\n",
      Tok.field "correct_information", Tok.lit "\n\n", Tok.field "call_to_action"]]

/-- `self.content_templates['community']`. -/
def community_template : ContentTemplate where
  hooks :=
    [[Tok.lit "❤️ Love our ", Tok.field "location", Tok.lit " community!"],
     [Tok.lit "🌟 Spotlight on ", Tok.field "location", Tok.lit ":"],
     [Tok.lit "🏘️ Why ", Tok.field "location", Tok.lit " is special:"],
     [Tok.lit "📍 Local favorite in ", Tok.field "location", Tok.lit ":"],
     [Tok.lit "🎉 Celebrating ", Tok.field "location", Tok.lit ":"]]
  structures :=
    [[Tok.field "hook", Tok.lit "\n\n", Tok.field "community_feature", Tok.lit "\n\n",
      Tok.field "personal_connection", Tok.lit "\n\n", Tok.field "call_to_action"],
     [Tok.field "hook", Tok.lit "\n\n", Tok.field "local_business_spotlight", Tok.lit "\n\n",
      Tok.field "community_value", Tok.lit "\n\n", Tok.field "call_to_action"]]

/-- `self.content_templates` as a keyed lookup. -/
def content_templates (content_type : String) : Option ContentTemplate :=
  if content_type = "property_showcase" then some property_showcase_template
  else if content_type = "market_update" then some market_update_template
  else if content_type = "educational" then some educational_template
  else if content_type = "community" then some community_template
  else none

/-- `self.cta_templates['property_inquiry']`. -/
def cta_property_inquiry : List String :=
  ["DM me for more details! 📩",
   "Ready to schedule a viewing? Let's chat! 💬",
   "Questions about this property? I'm here to help! 🤝",
   "Want to know more? Send me a message! 📱",
   "Interested? Let's discuss your options! 💼"]

/-- `self.cta_templates['market_consultation']`. -/
def cta_market_consultation : List String :=
  ["Want a personalized market analysis? Let's connect! 📊",
   "Curious about your home's value? Let's talk! 🏡",
   "Ready to explore the market? I'm here to guide you! 🗺️",
   "Need market insights for your area? Reach out! 📈",
   "Planning your next move? Let's strategize! 🎯"]

/-- `self.cta_templates['general_engagement']`. -/
def cta_general_engagement : List String :=
  ["What are your thoughts? Share in the comments! 💭",
   "Have questions? Drop them below! ⬇️",
   "Tag someone who needs to see this! 👥",
   "Save this post for later! 🔖",
   "Share your experience in the comments! 💬"]

/-- ASCII upper-casing of one character. -/
def toUpperAscii (c : Char) : Char :=
  if 'a' ≤ c ∧ c ≤ 'z' then Char.ofNat (c.toNat - 32) else c

/-- Helper of `title_str`: the Boolean records whether the previous character
was alphabetic. -/
def titleAux : Bool → List Char → List Char
  | _, [] => []
  | prevAlpha, c :: rest =>
    (if c.isAlpha then (if prevAlpha then toLowerAscii c else toUpperAscii c) else c)
      :: titleAux c.isAlpha rest

/-- Python's `str.title()` on the ASCII feature strings: the first letter of
each word upper-cased, the rest lower-cased. -/
def title_str (s : String) : String := ⟨titleAux false s.data⟩

/-- The `property_types` pool of `_generate_property_content`. -/
def property_types : List String :=
  ["family home", "condo", "townhouse", "luxury home", "starter home",
   "investment property"]

/-- The `features` pool of `_generate_property_content`. -/
def property_features : List String :=
  ["updated kitchen", "spacious bedrooms", "beautiful backyard",
   "modern finishes", "great location", "move-in ready"]

/-- The `trends` pool of `_generate_market_content`. -/
def market_trends : List String :=
  ["steady growth", "increased activity", "strong demand", "balanced market",
   "buyer opportunities"]

/-- The `topics` pool of `_generate_educational_content`. -/
def educational_topics : List String :=
  ["home inspection", "mortgage pre-approval", "market timing",
   "property valuation", "negotiation strategies"]

/-- The `community_features` pool of `_generate_community_content`. -/
def community_features : List String :=
  ["local businesses", "parks and recreation", "schools", "cultural events",
   "dining scene"]

/-- The random draws made while one content body is generated, one field per
`random.choice` call of the source. -/
structure BodyRand where
  hook_idx : ℕ
  structure_idx : ℕ
  property_type_idx : ℕ
  feature_idx1 : ℕ
  feature_idx2 : ℕ
  feature_idx3 : ℕ
  trend_idx : ℕ
  topic_idx : ℕ
  community_feature_idx : ℕ
  cta_idx : ℕ
deriving DecidableEq

/-- Embedding of `SEOContentService._generate_property_content`. -/
def generate_property_content (location : String)
    (custom_data : List (String × String)) (r : BodyRand) :
    List (String × String) :=
  let property_type :=
    (dict_get custom_data "property_type").getD (pick property_types r.property_type_idx)
  [("property_description", "Beautiful " ++ property_type ++ " in the heart of " ++
      location ++ ". This property offers everything you're looking for in your next home."),
   ("key_features", "✨ Key features:\n• " ++
      title_str (pick property_features r.feature_idx1) ++ "\n• " ++
      title_str (pick property_features r.feature_idx2) ++ "\n• " ++
      title_str (pick property_features r.feature_idx3)),
   ("price_info", (dict_get custom_data "price").getD "Competitively priced"),
   ("location_details", "Located in desirable " ++ location ++
      ", close to amenities and transportation."),
   ("neighborhood_info", location ++
      " offers the perfect blend of community charm and urban convenience."),
   ("investment_angle", "Excellent investment opportunity in " ++ location ++
      "'s growing market.")]

/-- Embedding of `SEOContentService._generate_market_content` (its
`custom_data` parameter is unused by the source body). -/
def generate_market_content (location : String)
    (custom_data : List (String × String)) (r : BodyRand) :
    List (String × String) :=
  [("market_data", "Recent data shows " ++ pick market_trends r.trend_idx ++
      " in the " ++ location ++ " real estate market."),
   ("trend_summary", "The " ++ location ++
      " market continues to show positive indicators for both buyers and sellers."),
   ("analysis", "What this means: " ++ location ++
      " remains an attractive market for real estate investment and homeownership."),
   ("impact_explanation", "These trends indicate continued stability and growth potential in " ++
      location ++ "."),
   ("advice", "Now is a great time to explore your options in this market.")]

/-- Embedding of `SEOContentService._generate_educational_content`. -/
def generate_educational_content (location : String)
    (custom_data : List (String × String)) (r : BodyRand) :
    List (String × String) :=
  let topic := (dict_get custom_data "topic").getD (pick educational_topics r.topic_idx)
  [("educational_content", "Understanding " ++ topic ++
      " is crucial for success in the " ++ location ++ " real estate market."),
   ("practical_application", "Here's how this applies to your " ++ location ++
      " property search or sale."),
   ("myth_busting", "Common myth: " ++ topic ++ " isn't important in smaller markets like " ++
      location ++ "."),
   ("correct_information", "Reality: " ++ topic ++ " is just as important in " ++
      location ++ " as anywhere else.")]

/-- Embedding of `SEOContentService._generate_community_content`. -/
def generate_community_content (location : String)
    (custom_data : List (String × String)) (r : BodyRand) :
    List (String × String) :=
  let feature :=
    (dict_get custom_data "feature").getD (pick community_features r.community_feature_idx)
  [("community_feature", "One of the things I love most about " ++ location ++
      " is our amazing " ++ feature ++ "."),
   ("local_business_spotlight", "Shoutout to the incredible " ++ feature ++
      " that make " ++ location ++ " special!"),
   ("personal_connection", "As a local real estate professional, I'm proud to call " ++
      location ++ " home."),
   ("community_value", "This is what makes " ++ location ++
      " such a desirable place to live and invest.")]

/-- Embedding of `SEOContentService._generate_content_body`.  The template
table fallback `self.content_templates.get(content_type,
self.content_templates['community'])` is `getD community_template`.  The hook
is rendered with `location` plus `custom_data` *outside* the source's
`try/except KeyError` block, so a hook whose field is missing propagates the
error; only the structure rendering is protected, falling back to the generic
sentence. -/
def generate_content_body (content_type location : String)
    (custom_data : List (String × String)) (r : BodyRand) : Except String String :=
  let template := (content_templates content_type).getD community_template
  match render_template (pickToks template.hooks r.hook_idx)
      (("location", location) :: custom_data) with
  | Except.error e => Except.error e
  | Except.ok hook =>
    let structure_toks := pickToks template.structures r.structure_idx
    let content_data :=
      if content_type = "property_showcase" then
        generate_property_content location custom_data r
      else if content_type = "market_update" then
        generate_market_content location custom_data r
      else if content_type = "educational" then
        generate_educational_content location custom_data r
      else
        generate_community_content location custom_data r
    let cta_pool :=
      if content_type = "property_showcase" then cta_property_inquiry
      else if content_type = "market_update" then cta_market_consultation
      else cta_general_engagement
    let content_data := content_data ++
      [("hook", hook), ("call_to_action", pick cta_pool r.cta_idx)]
    match render_template structure_toks content_data with
    | Except.ok formatted_content => Except.ok formatted_content
    | Except.error _ =>
      Except.ok (hook ++ "\n\n" ++
        ((dict_get content_data "description").getD
          ("Great opportunity in " ++ location ++ "!")) ++ "\n\n" ++
        ((dict_get content_data "call_to_action").getD ""))

/-- The `base_prompts` table of `_generate_image_prompt`; the source indexes
it directly (`base_prompts[content_type]`), so an unknown category raises
`KeyError`. -/
def base_prompts (content_type : String) : Option (List (List Tok)) :=
  if content_type = "property_showcase" then some
    [[Tok.lit "Professional real estate photography of a beautiful ",
      Tok.field "property_type", Tok.lit " exterior in ", Tok.field "location",
      Tok.lit ", Ontario, Canada"],
     [Tok.lit "High-quality interior shot of a modern ", Tok.field "room",
      Tok.lit " with natural lighting, real estate photography style"],
     [Tok.lit "Stunning curb appeal photo of a well-maintained home in ",
      Tok.field "location", Tok.lit ", professional real estate marketing"]]
  else if content_type = "market_update" then some
    [[Tok.lit "Professional infographic showing real estate market trends for ",
      Tok.field "location", Tok.lit ", clean modern design"],
     [Tok.lit "Aerial view of ", Tok.field "location",
      Tok.lit " neighborhood showing residential properties, professional photography"],
     [Tok.lit "Modern real estate market analysis chart with ", Tok.field "location",
      Tok.lit " data, professional business style"]]
  else if content_type = "educational" then some
    [[Tok.lit "Professional real estate consultation scene with agent and clients reviewing documents"],
     [Tok.lit "Clean, modern infographic explaining ", Tok.field "topic",
      Tok.lit " for real estate, educational style"],
     [Tok.lit "Professional real estate office setting with educational materials and charts"]]
  else if content_type = "community" then some
    [[Tok.lit "Beautiful community scene in ", Tok.field "location",
      Tok.lit ", Ontario showing local businesses and residents"],
     [Tok.lit "Scenic view of ", Tok.field "location",
      Tok.lit " neighborhood highlighting community features and amenities"],
     [Tok.lit "Local ", Tok.field "location",
      Tok.lit " landmark or community gathering place, professional photography"]]
  else none

/-- The `quality_enhancers` pool of `_generate_image_prompt`. -/
def quality_enhancers : List String :=
  ["professional photography", "high resolution", "excellent lighting",
   "commercial quality", "sharp focus", "real estate marketing style"]

/-- Embedding of `SEOContentService._generate_image_prompt`.  `sample` stands
for `random.sample` (here drawing 3 quality enhancers). -/
def generate_image_prompt (content_type location : String)
    (custom_data : List (String × String)) (prompt_idx : ℕ)
    (sample : List String → ℕ → List String) : Except String String :=
  match base_prompts content_type with
  | none => Except.error content_type
  | some prompts =>
    let prompt_data : List (String × String) :=
      [("location", location),
       ("property_type", (dict_get custom_data "property_type").getD "family home"),
       ("room", (dict_get custom_data "room").getD "living room"),
       ("topic", (dict_get custom_data "topic").getD "home buying process")]
    match render_template (pickToks prompts prompt_idx) prompt_data with
    | Except.error e => Except.error e
    | Except.ok base_prompt =>
      Except.ok (base_prompt ++ ", " ++ String.intercalate ", " (sample quality_enhancers 3))

/-- The SEO metadata record `_generate_seo_metadata` returns. -/
structure SeoMetadata where
  keyword_density : List (String × ℕ)
  meta_description : String
  primary_keywords : List String
  location_mentions : ℕ
  seo_score : ℚ
  content_length : ℕ
  readability_score : ℚ

/-- Embedding of `SEOContentService._generate_seo_metadata`. -/
def generate_seo_metadata (content location content_type : String) : SeoMetadata :=
  let content_lower := lowerChars content.data
  let keyword_density :=
    (real_estate_keywords_all.map
      (fun k => (k, countOccs (lowerChars k.data) content_lower))).filter
      (fun p => 0 < p.2)
  { keyword_density := keyword_density
    meta_description := "Real estate content for " ++ location ++ ". " ++
      (⟨content.data.take 100⟩ : String) ++ "..."
    primary_keywords := (keyword_density.map (fun p => p.1)).take 5
    location_mentions := countOccs (lowerChars location.data) content_lower
    seo_score := calculate_seo_score content location content_type
    content_length := content.data.length
    readability_score := calculate_readability_score content }

/-- All random draws one `generate_seo_optimized_content` call makes. -/
structure GenRand where
  location_idx : ℕ
  body : BodyRand
  target_count : ℕ
  sample : List String → ℕ → List String
  prompt_idx : ℕ
  target_hour : ℕ
  target_minute : ℕ

/-- The record `generate_seo_optimized_content` returns. -/
structure GeneratedContent where
  content : String
  hashtags : List String
  image_prompt : String
  platform : String
  content_type : String
  location : String
  optimal_posting_time : ℕ
  seo_metadata : SeoMetadata
  character_count : ℕ
  estimated_engagement_score : ℚ

/-- The body of `generate_seo_optimized_content` once the location is
resolved: content body, hashtags, image prompt, posting time, metadata and
engagement score in the source's order, each exception propagating (the
source has no `try/except` here). -/
def generate_with_location (content_type platform location : String)
    (custom_data : List (String × String)) (nowDay nowTime : ℕ) (r : GenRand) :
    Except String GeneratedContent :=
  match generate_content_body content_type location custom_data r.body with
  | Except.error e => Except.error e
  | Except.ok content =>
    match generate_hashtags content_type platform location r.target_count r.sample with
    | Except.error e => Except.error e
    | Except.ok hashtags =>
      match generate_image_prompt content_type location custom_data r.prompt_idx r.sample with
      | Except.error e => Except.error e
      | Except.ok image_prompt =>
        match get_optimal_posting_time platform nowDay nowTime r.target_hour r.target_minute with
        | Except.error e => Except.error e
        | Except.ok optimal_time =>
          match calculate_engagement_score content hashtags platform with
          | Except.error e => Except.error e
          | Except.ok engagement =>
            Except.ok
              { content := content, hashtags := hashtags, image_prompt := image_prompt,
                platform := platform, content_type := content_type, location := location,
                optimal_posting_time := optimal_time,
                seo_metadata := generate_seo_metadata content location content_type,
                character_count := content.data.length,
                estimated_engagement_score := engagement }

/-- Embedding of `SEOContentService.generate_seo_optimized_content`.  A falsy
`location` argument (`None` / empty string) is replaced by a random primary
location, then the resolved-location body runs. -/
def generate_seo_optimized_content (content_type platform location0 : String)
    (custom_data : List (String × String)) (nowDay nowTime : ℕ) (r : GenRand) :
    Except String GeneratedContent :=
  generate_with_location content_type platform
    (if location0 = "" then pick location_keywords_primary r.location_idx else location0)
    custom_data nowDay nowTime r

/-- The four keys of `type_weights` in `generate_content_calendar`;
`random.choices(..., weights=...)` always returns one of them, embedded as an
index modulo 4. -/
def calendar_content_type (i : ℕ) : String :=
  ["property_showcase", "market_update", "educational", "community"].getD (i % 4) "community"

/-- One calendar entry: the scheduled day (as an offset from the call day) and
the generated content (the source also attaches the formatted date and
weekday name, both functions of the same offset). -/
structure CalendarEntry where
  day_offset : ℕ
  content : GeneratedContent

/-- The loop of `generate_content_calendar`, generating days `day`,
`day + 1`, …, `day + remaining - 1`: a day is skipped when `skip day` (the
source's `random.random() < 0.3`), otherwise a content type is drawn by
weighted choice (`ctype_idx`), a location uniformly (`loc_idx`), and
`generate_seo_optimized_content` is called; its exception aborts the whole
loop, as an uncaught exception would. -/
def calendar_from (platform : String) (nowDay nowTime : ℕ) (skip : ℕ → Bool)
    (ctype_idx loc_idx : ℕ → ℕ) (rand : ℕ → GenRand) :
    ℕ → ℕ → Except String (List CalendarEntry)
  | _, 0 => Except.ok []
  | day, remaining + 1 =>
    if skip day then
      calendar_from platform nowDay nowTime skip ctype_idx loc_idx rand (day + 1) remaining
    else
      match generate_seo_optimized_content (calendar_content_type (ctype_idx day)) platform
          (pick location_keywords_primary (loc_idx day)) [] nowDay nowTime (rand day) with
      | Except.error e => Except.error e
      | Except.ok c =>
        match calendar_from platform nowDay nowTime skip ctype_idx loc_idx rand
            (day + 1) remaining with
        | Except.error e => Except.error e
        | Except.ok rest => Except.ok (⟨day, c⟩ :: rest)

/-- Embedding of `SEOContentService.generate_content_calendar`. -/
def generate_content_calendar (days : ℕ) (platform : String) (nowDay nowTime : ℕ)
    (skip : ℕ → Bool) (ctype_idx loc_idx : ℕ → ℕ) (rand : ℕ → GenRand) :
    Except String (List CalendarEntry) :=
  calendar_from platform nowDay nowTime skip ctype_idx loc_idx rand 0 days

/-! ### `AIImageService` (`src/services/ai_image_service.py`) -/

/-- The three credentials `AIImageService.__init__` loads from the
environment (`os.getenv(..., '')`: absent means the empty string, and Python
truthiness makes the empty string "not configured"). -/
structure ApiKeys where
  huggingface_api_key : String
  openai_api_key : String
  stability_api_key : String
deriving DecidableEq

/-- The result dict of `AIImageService.generate_image` and of the per-provider
request procedures. -/
structure ImageResult where
  success : Bool
  image_url : Option String
  provider : String
  model : String
  error : Option String
deriving DecidableEq

/-- `self.models['huggingface'].get(model, model)`. -/
def huggingface_model_id (model : String) : String :=
  if model = "stable-diffusion-v1-5" then "runwayml/stable-diffusion-v1-5"
  else if model = "stable-diffusion-xl" then "stabilityai/stable-diffusion-xl-base-1.0"
  else if model = "stable-diffusion-2-1" then "stabilityai/stable-diffusion-2-1"
  else model

/-- The outcome of one blocking HTTP request: a status code, or a transport
exception (timeout, connection error) with its message. -/
def HttpOutcome := Except String ℕ

/-- Embedding of `AIImageService._generate_with_huggingface`: on status 200
the success dict (provider `huggingface`); any other status raises, embedded
as the error value. -/
def generate_with_huggingface (prompt model : String) (resp : Except String ℕ)
    (filename : String) : Except String ImageResult :=
  match resp with
  | Except.error e => Except.error e
  | Except.ok status =>
    if status = 200 then
      Except.ok ⟨true, some ("/generated_images/" ++ filename), "huggingface",
        huggingface_model_id model, none⟩
    else Except.error ("Hugging Face API error: " ++ toString status)

/-- Embedding of `AIImageService._generate_with_pollination`: on status 200
the success dict (provider `pollination`, model `flux`); any other status
raises. -/
def generate_with_pollination (prompt model : String) (resp : Except String ℕ)
    (filename : String) : Except String ImageResult :=
  match resp with
  | Except.error e => Except.error e
  | Except.ok status =>
    if status = 200 then
      Except.ok ⟨true, some ("/generated_images/" ++ filename), "pollination", "flux", none⟩
    else Except.error ("Pollination API error: " ++ toString status)

/-- Embedding of `AIImageService._generate_with_openai`: raises at once when
no key is configured; on status 200 the success dict (provider `openai`,
model `dall-e-3`); any other status raises. -/
def generate_with_openai (prompt : String) (openai_api_key : String)
    (resp : Except String ℕ) (filename : String) : Except String ImageResult :=
  if openai_api_key = "" then Except.error "OpenAI API key not available"
  else
    match resp with
    | Except.error e => Except.error e
    | Except.ok status =>
      if status = 200 then
        Except.ok ⟨true, some ("/generated_images/" ++ filename), "openai", "dall-e-3", none⟩
      else Except.error "OpenAI API error"

/-- Embedding of `AIImageService._generate_with_fallback` (the `else` branch
for an unrecognized provider): one pollination attempt, and on its failure the
fixed "all free services unavailable" exception. -/
def generate_with_fallback (prompt model : String) (pollResp : Except String ℕ)
    (filename : String) : Except String ImageResult :=
  match generate_with_pollination prompt model pollResp filename with
  | Except.ok r => Except.ok r
  | Except.error _ =>
    Except.error "All free image generation services are currently unavailable"

/-- Embedding of `AIImageService._select_best_provider`: the source checks
only the Hugging Face key and otherwise falls back to the free provider. -/
def select_best_provider (keys : ApiKeys) : String :=
  if keys.huggingface_api_key ≠ "" then "huggingface" else "pollination"

/-- Modelled from the spec: the provider auto-selection the specification
describes — "prefer the provider with a configured credential (first one
present in priority order)" over the credentials the service loads (Hugging
Face, OpenAI, Stability), "else fall back to the always-available free
provider". -/
def select_best_provider_spec (keys : ApiKeys) : String :=
  if keys.huggingface_api_key ≠ "" then "huggingface"
  else if keys.openai_api_key ≠ "" then "openai"
  else if keys.stability_api_key ≠ "" then "stability"
  else "pollination"

/-- The per-call environment of one `generate_image` call: the loaded
credentials, the HTTP outcome each provider's request would produce if
issued, and the timestamped filename `_save_image` would produce. -/
structure ImageEnv where
  keys : ApiKeys
  hfResp : Except String ℕ
  oaResp : Except String ℕ
  pollResp : Except String ℕ
  filename : String

/-- The provider dispatch inside `generate_image`'s `try` block (the
`if/elif/elif/else` chain), paired with the provider(s) the dispatched
procedure attempts. -/
def provider_attempt (provider prompt model : String) (env : ImageEnv) :
    Except String ImageResult × List String :=
  if provider = "huggingface" then
    (generate_with_huggingface prompt model env.hfResp env.filename, ["huggingface"])
  else if provider = "pollination" then
    (generate_with_pollination prompt model env.pollResp env.filename, ["pollination"])
  else if provider = "openai" then
    (generate_with_openai prompt env.keys.openai_api_key env.oaResp env.filename, ["openai"])
  else
    (generate_with_fallback prompt model env.pollResp env.filename, ["pollination"])

/-- The `try/except` of `generate_image` for an already-resolved provider:
on an exception, when the provider is not `pollination`, exactly one
pollination attempt, whose own failure yields the failure dict; a failing
`pollination` provider yields the failure dict directly. -/
def run_with_fallback (provider prompt model : String) (env : ImageEnv) :
    ImageResult × List String :=
  match provider_attempt provider prompt model env with
  | (Except.ok r, trace) => (r, trace)
  | (Except.error e, trace) =>
    if provider ≠ "pollination" then
      match generate_with_pollination prompt model env.pollResp env.filename with
      | Except.ok r => (r, trace ++ ["pollination"])
      | Except.error _ => (⟨false, none, provider, model, some e⟩, trace ++ ["pollination"])
    else (⟨false, none, provider, model, some e⟩, trace)

/-- Embedding of `AIImageService.generate_image`, together with the ordered
trace of providers actually attempted: `auto` resolves through
`_select_best_provider`, then the resolved provider runs under the
`try/except` fallback.  The failure dict carries success `False`, the original
exception text, and the resolved provider and requested model echoed. -/
def generate_image (prompt model provider0 : String) (env : ImageEnv) :
    ImageResult × List String :=
  run_with_fallback
    (if provider0 = "auto" then select_best_provider env.keys else provider0)
    prompt model env

/-! ### Bridge lemmas between the Boolean string operations and Mathlib's
prefix/infix predicates. -/

theorem isPre_iff (n h : List Char) : isPre n h = true ↔ n <+: h := by
  induction n generalizing h with
  | nil => simp [isPre]
  | cons a as ih =>
    cases h with
    | nil => simp [isPre]
    | cons b bs => simp [isPre, List.cons_prefix_cons, ih]

theorem containsSub_iff (n h : List Char) : containsSub n h = true ↔ n <:+: h := by
  induction h with
  | nil => simp [containsSub, isPre_iff]
  | cons c rest ih =>
    simp [containsSub, isPre_iff, ih, List.infix_cons_iff]

theorem splitSentences_ne_nil : ∀ l : List Char, splitSentences l ≠ []
  | [] => by simp [splitSentences]
  | [c] => by unfold splitSentences; split <;> simp
  | c :: d :: rest => by
    have ih := splitSentences_ne_nil (d :: rest)
    unfold splitSentences
    split
    · split
      · exact ih
      · simp
    · cases h : splitSentences (d :: rest) <;> simp [consHead]

theorem splitSentences_length_pos (l : List Char) : 1 ≤ (splitSentences l).length := by
  have := splitSentences_ne_nil l
  cases h : splitSentences l with
  | nil => exact absurd h this
  | cons a b => simp

/-! ### Score bounds (shared helper lemmas). -/

theorem calculate_seo_score_bounds (content location content_type : String) :
    0 ≤ calculate_seo_score content location content_type ∧
    calculate_seo_score content location content_type ≤ 100 := by
  refine ⟨?_, min_le_right _ _⟩
  simp only [calculate_seo_score]
  refine le_min ?_ (by norm_num)
  split_ifs <;> positivity

theorem calculate_engagement_score_ok (content : String) (hashtags : List String)
    (platform : String) (strategy : HashtagStrategy)
    (hs : hashtag_strategies platform = some strategy) :
    ∃ q, calculate_engagement_score content hashtags platform = Except.ok q ∧
      0 ≤ q ∧ q ≤ 100 := by
  have hseo := calculate_seo_score_bounds content "Windsor" "general"
  simp only [calculate_engagement_score, hs]
  refine ⟨_, rfl, ?_, min_le_right _ _⟩
  refine le_min ?_ (by norm_num)
  have h1 : (0:ℚ) ≤ calculate_seo_score content "Windsor" "general" / 100 * 40 := by
    have := hseo.1; positivity
  refine add_nonneg (add_nonneg (add_nonneg h1 ?_) ?_) ?_
  · split_ifs
    · norm_num
    · exact le_max_right _ _
  · split_ifs <;> norm_num
  · unfold engagement_cta_bonus; split_ifs <;> norm_num

/-- C2: for every content string, location string, category string, hashtag
list and platform in the configured set, the SEO score and the engagement
score are within [0, 100] (the engagement computation succeeds and yields a
value in range). -/
theorem C2_scores_within_range (content location content_type : String)
    (hashtags : List String) (platform : String)
    (hp : platform = "instagram" ∨ platform = "facebook") :
    (0 ≤ calculate_seo_score content location content_type ∧
      calculate_seo_score content location content_type ≤ 100) ∧
    (∃ q, calculate_engagement_score content hashtags platform = Except.ok q ∧
      0 ≤ q ∧ q ≤ 100) := by
  refine ⟨calculate_seo_score_bounds content location content_type, ?_⟩
  rcases hp with h | h <;> subst h
  · exact calculate_engagement_score_ok content hashtags "instagram" _ rfl
  · exact calculate_engagement_score_ok content hashtags "facebook" _ rfl

/-- Witness for C2 at empty content, an empty hashtag list and platform
`instagram`. -/
theorem C2_scores_within_range_witness :
    (0 ≤ calculate_seo_score "" "Windsor" "community" ∧
      calculate_seo_score "" "Windsor" "community" ≤ 100) ∧
    (∃ q, calculate_engagement_score "" [] "instagram" = Except.ok q ∧
      0 ≤ q ∧ q ≤ 100) :=
  C2_scores_within_range "" "Windsor" "community" [] "instagram" (Or.inl rfl)

/-- C5 counterexample: on empty content the code returns 90, not the 0 the
claim requires for degenerate/empty content (the `re.split` result always has
at least one piece, so the zero-sentence branch never fires). -/
theorem C5_counterexample_empty_content :
    calculate_readability_score "" = 90 ∧ calculate_readability_score "" ≠ 0 := by
  have h1 : (splitSentences "".data).length = 1 := by decide
  have h2 : word_count "".data = 0 := by decide
  constructor
  · simp only [calculate_readability_score, h1, h2]; norm_num
  · simp only [calculate_readability_score, h1, h2]; norm_num

/-- C5 (amended): the sentence count is the number of pieces `re.split`
returns, which is always at least 1, so the zero-sentence branch is
unreachable and empty content scores 90; for every content the score is the
banded value of words / pieces (90 / 70 / 50 / 30 at the documented bands);
the content "A. B. C." scores 90 (3 words over 4 split pieces). -/
theorem C5_readability_banded (content : String) :
    1 ≤ (splitSentences content.data).length ∧
    calculate_readability_score content =
      (if ((word_count content.data : ℚ) / ((splitSentences content.data).length : ℚ)) ≤ 15
        then 90
       else if ((word_count content.data : ℚ) / ((splitSentences content.data).length : ℚ)) ≤ 20
        then 70
       else if ((word_count content.data : ℚ) / ((splitSentences content.data).length : ℚ)) ≤ 25
        then 50
       else 30) ∧
    calculate_readability_score "A. B. C." = 90 := by
  refine ⟨splitSentences_length_pos content.data, ?_, ?_⟩
  · have hne : ¬ ((splitSentences content.data).length = 0) := by
      have := splitSentences_length_pos content.data; omega
    simp only [calculate_readability_score, if_neg hne]
  · have h1 : (splitSentences "A. B. C.".data).length = 4 := by decide
    have h2 : word_count "A. B. C.".data = 3 := by decide
    simp only [calculate_readability_score, h1, h2]
    norm_num

/-- C7 counterexample: the content "Visit us today" contains the indicator
"visit" from the claim's (SEO-rubric) indicator set, yet the call-to-action
component of `_calculate_engagement_score` adds 0, not 10 — that component
tests a different list ("dm", "message", "contact", "comment", "share",
"tag"). -/
theorem C7_counterexample_visit :
    engagement_cta_bonus "Visit us today" = 0 ∧
    cta_indicators.any
      (fun i => containsSub i.data (lowerChars "Visit us today".data)) = true := by
  constructor
  · decide
  · decide

/-- C7 (amended): the call-to-action component of
`_calculate_engagement_score` adds exactly 10 points iff the lower-cased
content contains one of "dm", "message", "contact", "comment", "share",
"tag" (its own indicator list, not the SEO-rubric list), and 0 otherwise. -/
theorem C7_engagement_cta_component (content : String) :
    (engagement_cta_bonus content = 10 ↔
      ∃ i ∈ engagement_cta_indicators, i.data <:+: lowerChars content.data) ∧
    (engagement_cta_bonus content = 0 ↔
      ¬ ∃ i ∈ engagement_cta_indicators, i.data <:+: lowerChars content.data) := by
  have hiff : (engagement_cta_indicators.any
      (fun i => containsSub i.data (lowerChars content.data)) = true) ↔
      ∃ i ∈ engagement_cta_indicators, i.data <:+: lowerChars content.data := by
    rw [List.any_eq_true]
    simp only [containsSub_iff]
  unfold engagement_cta_bonus
  by_cases h : ∃ i ∈ engagement_cta_indicators, i.data <:+: lowerChars content.data
  · rw [if_pos (hiff.mpr h)]
    refine ⟨⟨fun _ => h, fun _ => rfl⟩, ⟨fun h0 => by norm_num at h0, fun hn => absurd h hn⟩⟩
  · rw [if_neg (fun hh => h (hiff.mp hh))]
    refine ⟨⟨fun h0 => by norm_num at h0, fun hp => absurd hp h⟩, ⟨fun _ => h, fun _ => rfl⟩⟩

theorem provider_attempt_hf (prompt model : String) (env : ImageEnv) :
    provider_attempt "huggingface" prompt model env =
      (generate_with_huggingface prompt model env.hfResp env.filename, ["huggingface"]) := by
  unfold provider_attempt
  rw [if_pos rfl]

theorem provider_attempt_oa (prompt model : String) (env : ImageEnv) :
    provider_attempt "openai" prompt model env =
      (generate_with_openai prompt env.keys.openai_api_key env.oaResp env.filename,
        ["openai"]) := by
  unfold provider_attempt
  rw [if_neg (by decide), if_neg (by decide), if_pos rfl]

theorem provider_attempt_poll (prompt model : String) (env : ImageEnv) :
    provider_attempt "pollination" prompt model env =
      (generate_with_pollination prompt model env.pollResp env.filename, ["pollination"]) := by
  unfold provider_attempt
  rw [if_neg (by decide), if_pos rfl]

theorem run_with_fallback_poll_fail (prompt model e : String) (env : ImageEnv)
    (hfail : generate_with_pollination prompt model env.pollResp env.filename =
      Except.error e) :
    run_with_fallback "pollination" prompt model env =
      (⟨false, none, "pollination", model, some e⟩, ["pollination"]) := by
  unfold run_with_fallback
  rw [provider_attempt_poll, hfail]
  simp

theorem generate_with_pollination_ok_fields (prompt model : String)
    (resp : Except String ℕ) (filename : String) (r : ImageResult)
    (h : generate_with_pollination prompt model resp filename = Except.ok r) :
    r.success = true ∧ r.provider = "pollination" := by
  unfold generate_with_pollination at h
  cases resp with
  | error e => cases h
  | ok status =>
    dsimp only at h
    by_cases hs : status = 200
    · rw [if_pos hs] at h; cases h; exact ⟨rfl, rfl⟩
    · rw [if_neg hs] at h; cases h

theorem run_with_fallback_hf_fail (prompt model e : String) (env : ImageEnv)
    (hfail : generate_with_huggingface prompt model env.hfResp env.filename =
      Except.error e) :
    run_with_fallback "huggingface" prompt model env =
      (match generate_with_pollination prompt model env.pollResp env.filename with
       | Except.ok r => (r, ["huggingface", "pollination"])
       | Except.error _ =>
         (⟨false, none, "huggingface", model, some e⟩, ["huggingface", "pollination"])) := by
  unfold run_with_fallback
  rw [provider_attempt_hf, hfail]
  dsimp only
  rw [if_pos (by decide)]
  cases generate_with_pollination prompt model env.pollResp env.filename <;> rfl

theorem run_with_fallback_oa_fail (prompt model e : String) (env : ImageEnv)
    (hfail : generate_with_openai prompt env.keys.openai_api_key env.oaResp env.filename =
      Except.error e) :
    run_with_fallback "openai" prompt model env =
      (match generate_with_pollination prompt model env.pollResp env.filename with
       | Except.ok r => (r, ["openai", "pollination"])
       | Except.error _ =>
         (⟨false, none, "openai", model, some e⟩, ["openai", "pollination"])) := by
  unfold run_with_fallback
  rw [provider_attempt_oa, hfail]
  dsimp only
  rw [if_pos (by decide)]
  cases generate_with_pollination prompt model env.pollResp env.filename <;> rfl

/-- C4: when the selected provider is a non-free provider (huggingface or
openai) and its request procedure fails, `generate_image` makes exactly one
fallback attempt against the free provider — the attempt trace is
`[provider, "pollination"]`; a successful fallback is returned as-is, with
`success = true` and `provider = "pollination"`; a failing fallback yields
the failure result; and a failure of the free provider itself (when it is the
selected provider) yields a failure result with no further attempt. -/
theorem C4_nonfree_failure_fallback (prompt model provider e : String) (env : ImageEnv)
    (hp : provider = "huggingface" ∨ provider = "openai")
    (hfail : (provider_attempt provider prompt model env).1 = Except.error e) :
    (generate_image prompt model provider env).2 = [provider, "pollination"] ∧
    (∀ r, generate_with_pollination prompt model env.pollResp env.filename = Except.ok r →
      (generate_image prompt model provider env).1 = r ∧
      r.success = true ∧ r.provider = "pollination") ∧
    (∀ e2, generate_with_pollination prompt model env.pollResp env.filename =
        Except.error e2 →
      (generate_image prompt model provider env).1 =
        ⟨false, none, provider, model, some e⟩) ∧
    (∀ e3, generate_with_pollination prompt model env.pollResp env.filename =
        Except.error e3 →
      generate_image prompt model "pollination" env =
        (⟨false, none, "pollination", model, some e3⟩, ["pollination"])) := by
  have hgenp : generate_image prompt model "pollination" env =
      run_with_fallback "pollination" prompt model env := by
    unfold generate_image; rw [if_neg (by decide)]
  have hterm : ∀ e3, generate_with_pollination prompt model env.pollResp env.filename =
      Except.error e3 →
      generate_image prompt model "pollination" env =
        (⟨false, none, "pollination", model, some e3⟩, ["pollination"]) := by
    intro e3 h3
    rw [hgenp, run_with_fallback_poll_fail prompt model e3 env h3]
  rcases hp with h | h <;> subst h
  · have hfail' : generate_with_huggingface prompt model env.hfResp env.filename =
        Except.error e := by
      rw [provider_attempt_hf] at hfail; exact hfail
    have hgen : generate_image prompt model "huggingface" env =
        run_with_fallback "huggingface" prompt model env := by
      unfold generate_image; rw [if_neg (by decide)]
    have hrun := run_with_fallback_hf_fail prompt model e env hfail'
    refine ⟨?_, ?_, ?_, hterm⟩
    · rw [hgen, hrun]
      cases hpoll : generate_with_pollination prompt model env.pollResp env.filename <;> rfl
    · intro r' hr'
      have hf := generate_with_pollination_ok_fields prompt model env.pollResp
        env.filename r' hr'
      refine ⟨?_, hf.1, hf.2⟩
      rw [hgen, hrun, hr']
    · intro e2 he2
      rw [hgen, hrun, he2]
  · have hfail' : generate_with_openai prompt env.keys.openai_api_key env.oaResp
        env.filename = Except.error e := by
      rw [provider_attempt_oa] at hfail; exact hfail
    have hgen : generate_image prompt model "openai" env =
        run_with_fallback "openai" prompt model env := by
      unfold generate_image; rw [if_neg (by decide)]
    have hrun := run_with_fallback_oa_fail prompt model e env hfail'
    refine ⟨?_, ?_, ?_, hterm⟩
    · rw [hgen, hrun]
      cases hpoll : generate_with_pollination prompt model env.pollResp env.filename <;> rfl
    · intro r' hr'
      have hf := generate_with_pollination_ok_fields prompt model env.pollResp
        env.filename r' hr'
      refine ⟨?_, hf.1, hf.2⟩
      rw [hgen, hrun, hr']
    · intro e2 he2
      rw [hgen, hrun, he2]

/-- C9 (amended): with `provider = "auto"` the selection is deterministic
given the credentials, but it consults only the Hugging Face credential:
`huggingface` when that key is configured, else the free provider — the
OpenAI and Stability keys are never examined (second conjunct), and the first
provider `generate_image` attempts is exactly the selected one. -/
theorem C9_auto_selection (prompt model : String) (env : ImageEnv) :
    select_best_provider env.keys =
      (if env.keys.huggingface_api_key ≠ "" then "huggingface" else "pollination") ∧
    (∀ oa st, select_best_provider ⟨"", oa, st⟩ = "pollination") ∧
    (generate_image prompt model "auto" env).2.head? =
      some (select_best_provider env.keys) := by
  refine ⟨rfl, fun oa st => rfl, ?_⟩
  have hauto : generate_image prompt model "auto" env =
      run_with_fallback (select_best_provider env.keys) prompt model env := by
    unfold generate_image; rw [if_pos rfl]
  rw [hauto]
  by_cases hk : env.keys.huggingface_api_key = ""
  · have hsel : select_best_provider env.keys = "pollination" := by
      unfold select_best_provider
      rw [if_neg (by simp [hk])]
    rw [hsel]
    unfold run_with_fallback
    rw [provider_attempt_poll]
    cases hpoll : generate_with_pollination prompt model env.pollResp env.filename with
    | error e =>
      dsimp only
      rw [if_neg (by decide)]
      rfl
    | ok r => rfl
  · have hsel : select_best_provider env.keys = "huggingface" := by
      unfold select_best_provider
      rw [if_pos hk]
    rw [hsel]
    unfold run_with_fallback
    rw [provider_attempt_hf]
    cases hhf : generate_with_huggingface prompt model env.hfResp env.filename with
    | error e =>
      dsimp only
      rw [if_pos (by decide)]
      cases generate_with_pollination prompt model env.pollResp env.filename <;> rfl
    | ok r => rfl

/-- C9 counterexample: with only the OpenAI credential configured, the code
selects the free provider, while the claim's priority-order selection would
choose `openai`. -/
theorem C9_counterexample_openai_key :
    select_best_provider ⟨"", "sk-test", ""⟩ = "pollination" ∧
    select_best_provider_spec ⟨"", "sk-test", ""⟩ = "openai" ∧
    select_best_provider ⟨"", "sk-test", ""⟩ ≠
      select_best_provider_spec ⟨"", "sk-test", ""⟩ := by
  refine ⟨rfl, rfl, by decide⟩

/-- Invariants of the calendar loop, by induction on the remaining days. -/
theorem calendar_from_spec (platform : String) (nowDay nowTime : ℕ) (skip : ℕ → Bool)
    (ctype_idx loc_idx : ℕ → ℕ) (rand : ℕ → GenRand) :
    ∀ (remaining day : ℕ) (entries : List CalendarEntry),
      calendar_from platform nowDay nowTime skip ctype_idx loc_idx rand day remaining =
        Except.ok entries →
      entries.length ≤ remaining ∧
      List.Pairwise (fun a b => a < b) (entries.map CalendarEntry.day_offset) ∧
      ∀ e ∈ entries, day ≤ e.day_offset ∧ e.day_offset < day + remaining := by
  intro remaining
  induction remaining with
  | zero =>
    intro day entries h
    unfold calendar_from at h
    cases h
    simp
  | succ rem ih =>
    intro day entries h
    unfold calendar_from at h
    by_cases hskip : skip day
    · rw [if_pos hskip] at h
      obtain ⟨h1, h2, h3⟩ := ih (day + 1) entries h
      refine ⟨by omega, h2, ?_⟩
      intro e he
      have := h3 e he
      omega
    · rw [if_neg hskip] at h
      cases hgen : generate_seo_optimized_content (calendar_content_type (ctype_idx day))
          platform (pick location_keywords_primary (loc_idx day)) [] nowDay nowTime
          (rand day) with
      | error e => rw [hgen] at h; cases h
      | ok c =>
        rw [hgen] at h
        dsimp only at h
        cases hrest : calendar_from platform nowDay nowTime skip ctype_idx loc_idx rand
            (day + 1) rem with
        | error e => rw [hrest] at h; cases h
        | ok rest =>
          rw [hrest] at h
          dsimp only at h
          cases h
          obtain ⟨h1, h2, h3⟩ := ih (day + 1) rest hrest
          refine ⟨by simp; omega, ?_, ?_⟩
          · simp only [List.map_cons]
            refine List.pairwise_cons.mpr ⟨?_, h2⟩
            intro b hb
            obtain ⟨e, he, rfl⟩ := List.mem_map.mp hb
            have := h3 e he
            omega
          · intro e he
            rcases List.mem_cons.mp he with rfl | he2
            · refine ⟨le_of_eq rfl, ?_⟩
              show day < day + (rem + 1)
              omega
            · have := h3 e he2
              omega

/-- C8: whenever `generate_content_calendar days platform ...` returns a
list, its length is between 0 and `days` inclusive, the scheduled day
offsets (scheduled date = call date + offset) are strictly increasing, and
every offset falls within the next `days` days; in particular a returned
calendar for `(30, "instagram")` has length in [0, 30]. -/
theorem C8_calendar_length_and_dates (days : ℕ) (platform : String) (nowDay nowTime : ℕ)
    (skip : ℕ → Bool) (ctype_idx loc_idx : ℕ → ℕ) (rand : ℕ → GenRand)
    (entries : List CalendarEntry)
    (h : generate_content_calendar days platform nowDay nowTime skip ctype_idx loc_idx
      rand = Except.ok entries) :
    entries.length ≤ days ∧
    List.Pairwise (fun a b => a < b) (entries.map CalendarEntry.day_offset) ∧
    ∀ e ∈ entries, e.day_offset < days := by
  obtain ⟨h1, h2, h3⟩ :=
    calendar_from_spec platform nowDay nowTime skip ctype_idx loc_idx rand days 0 entries h
  exact ⟨h1, h2, fun e he => by have := h3 e he; omega⟩

/-- Witness for C8 at `days = 2`, platform `instagram`, every day skipped. -/
theorem C8_calendar_witness :
    ([] : List CalendarEntry).length ≤ 2 ∧
    List.Pairwise (fun a b => a < b)
      (([] : List CalendarEntry).map CalendarEntry.day_offset) ∧
    ∀ e ∈ ([] : List CalendarEntry), e.day_offset < 2 :=
  C8_calendar_length_and_dates 2 "instagram" 0 0 (fun _ => true) (fun _ => 0) (fun _ => 0)
    (fun _ => ⟨0, ⟨0, 0, 0, 0, 0, 0, 0, 0, 0, 0⟩, 8, fun pool n => pool.take n, 0, 11, 0⟩)
    [] rfl

theorem hashtag_strategies_eq_none_iff (platform : String) :
    hashtag_strategies platform = none ↔
      platform ≠ "instagram" ∧ platform ≠ "facebook" := by
  unfold hashtag_strategies
  split_ifs <;> simp [*]

theorem optimal_posting_times_eq_none_iff (platform : String) :
    optimal_posting_times platform = none ↔
      platform ≠ "instagram" ∧ platform ≠ "facebook" := by
  unfold optimal_posting_times
  split_ifs <;> simp [*]

theorem generate_hashtags_error_iff (content_type platform location : String)
    (target_count : ℕ) (sample : List String → ℕ → List String) :
    (∃ e, generate_hashtags content_type platform location target_count sample =
      Except.error e) ↔ platform ≠ "instagram" ∧ platform ≠ "facebook" := by
  rw [← hashtag_strategies_eq_none_iff]
  unfold generate_hashtags
  cases h : hashtag_strategies platform with
  | none => simp
  | some s => simp

theorem calculate_engagement_score_error_iff (content : String) (hashtags : List String)
    (platform : String) :
    (∃ e, calculate_engagement_score content hashtags platform = Except.error e) ↔
      platform ≠ "instagram" ∧ platform ≠ "facebook" := by
  rw [← hashtag_strategies_eq_none_iff]
  unfold calculate_engagement_score
  cases h : hashtag_strategies platform with
  | none => simp
  | some s => simp

theorem get_optimal_posting_time_error_iff (platform : String)
    (nowDay nowTime target_hour target_minute : ℕ) :
    (∃ e, get_optimal_posting_time platform nowDay nowTime target_hour target_minute =
      Except.error e) ↔ platform ≠ "instagram" ∧ platform ≠ "facebook" := by
  rw [← optimal_posting_times_eq_none_iff]
  unfold get_optimal_posting_time
  cases h : optimal_posting_times platform with
  | none => simp
  | some s => simp

theorem generate_error_of_bad_platform (content_type platform location0 : String)
    (custom_data : List (String × String)) (nowDay nowTime : ℕ) (r : GenRand)
    (h1 : platform ≠ "instagram") (h2 : platform ≠ "facebook") :
    ∃ e, generate_seo_optimized_content content_type platform location0 custom_data
      nowDay nowTime r = Except.error e := by
  unfold generate_seo_optimized_content generate_with_location
  cases hbody : generate_content_body content_type
      (if location0 = "" then pick location_keywords_primary r.location_idx else location0)
      custom_data r.body with
  | error e => exact ⟨e, rfl⟩
  | ok content =>
    dsimp only
    obtain ⟨e, he⟩ := (generate_hashtags_error_iff content_type platform
      (if location0 = "" then pick location_keywords_primary r.location_idx else location0)
      (GenRand.target_count r) (GenRand.sample r)).mpr ⟨h1, h2⟩
    rw [he]
    exact ⟨e, rfl⟩

theorem generate_hashtags_ok_bound (content_type platform location : String)
    (target_count : ℕ) (sample : List String → ℕ → List String)
    (l : List String)
    (h : generate_hashtags content_type platform location target_count sample =
      Except.ok l) :
    l.length ≤ target_count ∧ l.Nodup := by
  unfold generate_hashtags at h
  cases hs : hashtag_strategies platform with
  | none => rw [hs] at h; exact absurd h (by simp)
  | some strategy =>
    rw [hs] at h
    simp only [Except.ok.injEq] at h
    subst h
    constructor
    · simpa using List.length_take_le target_count _
    · exact (List.take_sublist _ _).nodup (List.nodup_dedup _)

theorem generate_with_location_hashtags (content_type platform location : String)
    (custom_data : List (String × String)) (nowDay nowTime : ℕ) (r : GenRand)
    (gc : GeneratedContent)
    (h : generate_with_location content_type platform location custom_data
      nowDay nowTime r = Except.ok gc) :
    generate_hashtags content_type platform location r.target_count r.sample =
      Except.ok gc.hashtags := by
  unfold generate_with_location at h
  cases hbody : generate_content_body content_type location custom_data r.body with
  | error e => rw [hbody] at h; cases h
  | ok content =>
    rw [hbody] at h; dsimp only at h
    cases hht : generate_hashtags content_type platform location r.target_count r.sample with
    | error e => rw [hht] at h; cases h
    | ok hashtags =>
      rw [hht] at h; dsimp only at h
      cases hip : generate_image_prompt content_type location custom_data r.prompt_idx r.sample with
      | error e => rw [hip] at h; cases h
      | ok image_prompt =>
        rw [hip] at h; dsimp only at h
        cases hot : get_optimal_posting_time platform nowDay nowTime r.target_hour r.target_minute with
        | error e => rw [hot] at h; cases h
        | ok optimal_time =>
          rw [hot] at h; dsimp only at h
          cases heng : calculate_engagement_score content hashtags platform with
          | error e => rw [heng] at h; cases h
          | ok engagement =>
            rw [heng] at h; dsimp only at h
            cases h
            rfl

/-- C10: a platform outside the two configured keys is a hard lookup failure,
not a silent fallback: `_generate_hashtags`, `_calculate_engagement_score`
and `_get_optimal_posting_time` take the error branch exactly when the
platform is neither `instagram` nor `facebook`, and
`generate_seo_optimized_content` fails for every such platform — whereas an
unrecognized content category silently falls back to the community template
table (last conjunct). -/
theorem C10_unknown_platform_is_hard_error (content_type location content : String)
    (hashtags : List String) (platform : String) (target_count : ℕ)
    (sample : List String → ℕ → List String)
    (nowDay nowTime target_hour target_minute : ℕ) :
    ((∃ e, generate_hashtags content_type platform location target_count sample =
        Except.error e) ↔ platform ≠ "instagram" ∧ platform ≠ "facebook") ∧
    ((∃ e, calculate_engagement_score content hashtags platform = Except.error e) ↔
      platform ≠ "instagram" ∧ platform ≠ "facebook") ∧
    ((∃ e, get_optimal_posting_time platform nowDay nowTime target_hour target_minute =
        Except.error e) ↔ platform ≠ "instagram" ∧ platform ≠ "facebook") ∧
    (platform ≠ "instagram" → platform ≠ "facebook" →
      ∀ (location0 : String) (custom_data : List (String × String)) (r : GenRand),
        ∃ e, generate_seo_optimized_content content_type platform location0 custom_data
          nowDay nowTime r = Except.error e) ∧
    (content_type ≠ "property_showcase" → content_type ≠ "market_update" →
      content_type ≠ "educational" → content_type ≠ "community" →
      (content_templates content_type).getD community_template = community_template) := by
  refine ⟨generate_hashtags_error_iff content_type platform location target_count sample,
    calculate_engagement_score_error_iff content hashtags platform,
    get_optimal_posting_time_error_iff platform nowDay nowTime target_hour target_minute,
    ?_, ?_⟩
  · intro h1 h2 location0 custom_data r
    exact generate_error_of_bad_platform content_type platform location0 custom_data
      nowDay nowTime r h1 h2
  · intro hc1 hc2 hc3 hc4
    unfold content_templates
    rw [if_neg hc1, if_neg hc2, if_neg hc3, if_neg hc4]
    rfl

/-- C1: for any platform with a configured strategy and any target count
drawn from its `[min_count, max_count]` range, `_generate_hashtags` returns a
list of length at most the platform's configured maximum with no duplicate
entries — and hence so is the `hashtags` field of any successful
`generate_seo_optimized_content` result with that target count. -/
theorem C1_hashtags_within_max (content_type platform location : String)
    (target_count : ℕ) (sample : List String → ℕ → List String)
    (strategy : HashtagStrategy)
    (hs : hashtag_strategies platform = some strategy)
    (hmin : strategy.min_count ≤ target_count)
    (hmax : target_count ≤ strategy.max_count) :
    (∃ l, generate_hashtags content_type platform location target_count sample =
        Except.ok l ∧ l.length ≤ strategy.max_count ∧ l.Nodup) ∧
    (∀ (location0 : String) (custom_data : List (String × String)) (nowDay nowTime : ℕ)
        (r : GenRand) (gc : GeneratedContent),
      r.target_count = target_count →
      generate_seo_optimized_content content_type platform location0 custom_data
        nowDay nowTime r = Except.ok gc →
      gc.hashtags.length ≤ strategy.max_count ∧ gc.hashtags.Nodup) := by
  constructor
  · have hok : ∃ l, generate_hashtags content_type platform location target_count sample =
        Except.ok l := by
      unfold generate_hashtags
      rw [hs]
      exact ⟨_, rfl⟩
    obtain ⟨l, hl⟩ := hok
    obtain ⟨hlen, hnd⟩ := generate_hashtags_ok_bound _ _ _ _ _ _ hl
    exact ⟨l, hl, hlen.trans hmax, hnd⟩
  · intro location0 custom_data nowDay nowTime r gc htc hgen
    unfold generate_seo_optimized_content at hgen
    have hht := generate_with_location_hashtags _ _ _ _ _ _ _ _ hgen
    rw [htc] at hht
    obtain ⟨hlen, hnd⟩ := generate_hashtags_ok_bound _ _ _ _ _ _ hht
    exact ⟨hlen.trans hmax, hnd⟩

/-- Witness for C1 at `property_showcase`/`instagram`/`Windsor`, target count
8, sampling by `take`. -/
theorem C1_hashtags_within_max_witness :
    (∃ l, generate_hashtags "property_showcase" "instagram" "Windsor" 8
        (fun pool n => pool.take n) = Except.ok l ∧
      l.length ≤ (HashtagStrategy.mk 8 12 (3/10) (4/10) (3/10)).max_count ∧ l.Nodup) ∧
    (∀ (location0 : String) (custom_data : List (String × String)) (nowDay nowTime : ℕ)
        (r : GenRand) (gc : GeneratedContent),
      r.target_count = 8 →
      generate_seo_optimized_content "property_showcase" "instagram" location0 custom_data
        nowDay nowTime r = Except.ok gc →
      gc.hashtags.length ≤ (HashtagStrategy.mk 8 12 (3/10) (4/10) (3/10)).max_count ∧
        gc.hashtags.Nodup) :=
  C1_hashtags_within_max "property_showcase" "instagram" "Windsor" 8
    (fun pool n => pool.take n) ⟨8, 12, 3/10, 4/10, 3/10⟩ rfl (by norm_num) (by norm_num)

/-- C3 (code bug): for the `educational` category with empty overrides, the
hook draw `"🤔 Wondering about {topic}?"` is formatted *outside* the
`try/except KeyError` block, so `_generate_content_body` raises
`KeyError('topic')` instead of returning the generic fallback sentence — and
`generate_seo_optimized_content` propagates it for every platform. -/
theorem C3_educational_hook_raises :
    generate_content_body "educational" "Windsor" [] ⟨3, 0, 0, 0, 0, 0, 0, 0, 0, 0⟩ =
      Except.error "topic" ∧
    (∀ (platform : String) (nowDay nowTime : ℕ) (r : GenRand),
      r.body = ⟨3, 0, 0, 0, 0, 0, 0, 0, 0, 0⟩ →
      generate_seo_optimized_content "educational" platform "Windsor" [] nowDay nowTime r =
        Except.error "topic") := by
  refine ⟨rfl, ?_⟩
  intro platform nowDay nowTime r hr
  unfold generate_seo_optimized_content generate_with_location
  rw [hr]
  rfl

/-- C6: for both configured platforms and every call time, the posting time
returned is strictly later than `now`; when the drawn time-of-day is at or
before `now` today, the date advances by exactly one day. -/
theorem C6_posting_time_strictly_future (platform : String)
    (nowDay nowTime target_hour target_minute : ℕ)
    (hp : platform = "instagram" ∨ platform = "facebook")
    (ht : nowTime < usPerDay) :
    ∃ ts, get_optimal_posting_time platform nowDay nowTime target_hour target_minute =
        Except.ok ts ∧
      nowDay * usPerDay + nowTime < ts ∧
      (nowDay * usPerDay + (target_hour * 3600 + target_minute * 60) * 1000000 ≤
          nowDay * usPerDay + nowTime →
        ts = nowDay * usPerDay + (target_hour * 3600 + target_minute * 60) * 1000000 +
          usPerDay) := by
  have hsome : ∃ pt, optimal_posting_times platform = some pt := by
    rcases hp with h | h <;> subst h
    · exact ⟨_, rfl⟩
    · exact ⟨_, rfl⟩
  obtain ⟨pt, hpt⟩ := hsome
  unfold get_optimal_posting_time
  rw [hpt]
  refine ⟨_, rfl, ?_, ?_⟩
  · split_ifs with h
    · unfold usPerDay at *; omega
    · omega
  · intro hle
    rw [if_pos hle]

/-- Witness for C6 at platform `instagram`, midnight of day 0, draw 11:00. -/
theorem C6_posting_time_strictly_future_witness :
    ∃ ts, get_optimal_posting_time "instagram" 0 0 11 0 = Except.ok ts ∧
      0 * usPerDay + 0 < ts ∧
      (0 * usPerDay + (11 * 3600 + 0 * 60) * 1000000 ≤ 0 * usPerDay + 0 →
        ts = 0 * usPerDay + (11 * 3600 + 0 * 60) * 1000000 + usPerDay) :=
  C6_posting_time_strictly_future "instagram" 0 0 11 0 (Or.inl rfl) (by norm_num [usPerDay])

/-- Witness for C4: Hugging Face returns status 500, pollination status 200. -/
theorem C4_nonfree_failure_fallback_witness :
    ((generate_image "p" "m" "huggingface"
      ⟨⟨"k", "", ""⟩, Except.ok 500, Except.ok 200, Except.ok 200, "f.png"⟩).2 =
        ["huggingface", "pollination"]) ∧
    ((generate_image "p" "m" "huggingface"
      ⟨⟨"k", "", ""⟩, Except.ok 500, Except.ok 200, Except.ok 200, "f.png"⟩).1.success =
        true) ∧
    ((generate_image "p" "m" "huggingface"
      ⟨⟨"k", "", ""⟩, Except.ok 500, Except.ok 200, Except.ok 200, "f.png"⟩).1.provider =
        "pollination") := by
  have h := C4_nonfree_failure_fallback "p" "m" "huggingface"
    "Hugging Face API error: 500"
    ⟨⟨"k", "", ""⟩, Except.ok 500, Except.ok 200, Except.ok 200, "f.png"⟩
    (Or.inl rfl) (by rfl)
  obtain ⟨htrace, hok, _, _⟩ := h
  obtain ⟨hres, hsucc, hprov⟩ := hok _ rfl
  exact ⟨htrace, by rw [hres, hsucc], by rw [hres, hprov]⟩
